import Mathlib

/-!
Shallow embedding of `src/scripts/aurora_cluster_scheduler.py`:
an Aurora cluster stop/start scheduler invoked as an SSM automation step.
Remote RDS interaction is modelled by an oracle record (`RdsClient`) whose
fields give the outcome of each remote call site, indexed by attempt number
where the source calls the same API repeatedly.  Python exceptions become
`Except Fault`; side-effect ordering (invocations, sleeps, describe calls)
is captured as an explicit event trace.
-/

namespace AuroraScheduler

/-- Python constants `ACTION_START` / `ACTION_STOP` (lines 25-26). -/
def ACTION_START : String := "start"

def ACTION_STOP : String := "stop"

/-- Status constants (lines 28-31). -/
def STATUS_AVAILABLE : String := "available"

def STATUS_STOPPED : String := "stopped"

def STATUS_STARTING : String := "starting"

def STATUS_STOPPING : String := "stopping"

/-- `UNSTOPPABLE_ENGINE_MODES` (line 33). -/
def UNSTOPPABLE_ENGINE_MODES : List String :=
  ["global", "parallelquery", "multimaster", "serverless"]

/-- `MAX_RETRIES` (line 35). -/
def MAX_RETRIES : Nat := 3

/-- `RETRY_DELAY_SECONDS` (line 36). -/
def RETRY_DELAY_SECONDS : Nat := 5

/-- A fault raised by a remote call.  The source distinguishes
`rds_client.exceptions.InvalidDBClusterStateFault` from every other
exception; each carries the text that `str(exc)` would produce. -/
inductive Fault where
  | invalidState (msg : String)
  | transient (msg : String)
deriving DecidableEq

/-- `str(exc)` for a modelled fault. -/
def Fault.toMessage : Fault → String
  | .invalidState m => m
  | .transient m => m

/-- One tag as returned by `list_tags_for_resource` (key and value). -/
structure Tag where
  Key : String
  Value : String
deriving DecidableEq

/-- A cluster descriptor as returned by `describe_db_clusters` pages.
Optional fields model Python `dict.get`: `Engine` and `EngineMode` may be
absent, and `DBClusterInstanceClass` is modelled only by its
presence/absence, which is all the source inspects. -/
structure Cluster where
  DBClusterIdentifier : String
  Engine : Option String
  EngineMode : Option String
  DBClusterInstanceClass : Option String
  DBClusterArn : String
deriving DecidableEq

/-- Observable remote-interaction events of the retry loop:
`invoke n` is the start/stop API call made on attempt `n`,
`sleepEv s` is `time.sleep(s)`, and `describeEv n` is the confirmatory
`describe_db_clusters` read on attempt `n`. -/
inductive Ev where
  | invoke (attempt : Nat)
  | sleepEv (seconds : Nat)
  | describeEv (attempt : Nat)
deriving DecidableEq

/-- Oracle model of the boto3 RDS client.  `pages` is the paginated
inventory; `startCall`/`stopCall` give the fault (if any) of the start/stop
invocation for a given cluster on a given attempt; `confirmStatus` is the
in-loop confirmatory status read per attempt; `describeStatus` is the
pre-guard status fetch in `process_cluster`. -/
structure RdsClient where
  pages : List (List Cluster)
  list_tags_for_resource : String → Except Fault (List Tag)
  describeStatus : String → Except Fault String
  startCall : String → Nat → Option Fault
  stopCall : String → Nat → Option Fault
  confirmStatus : String → Nat → Except Fault String

/-- Python `str.lower()`, written over the character list so that concrete
instances reduce inside the kernel. -/
def pyLower (s : String) : String := String.mk (s.data.map Char.toLower)

/-- Python `str.startswith(prefix)`, written over the character list so
that concrete instances reduce inside the kernel. -/
def pyStartsWith (s pre : String) : Bool := pre.data.isPrefixOf s.data

/-- `is_multi_az_db_cluster` (lines 42-49): Multi-AZ DB Clusters
(non-Aurora) have a `DBClusterInstanceClass` field that Aurora clusters
lack. -/
def is_multi_az_db_cluster (cluster : Cluster) : Bool :=
  let engine := cluster.Engine.getD ""
  let has_instance_class := cluster.DBClusterInstanceClass.isSome
  (pyStartsWith engine "mysql" || pyStartsWith engine "postgres") && has_instance_class

/-- `is_stoppable_cluster` (lines 52-71): true iff the cluster type
supports stop/start. -/
def is_stoppable_cluster (cluster : Cluster) : Bool :=
  let engine_mode := pyLower (cluster.EngineMode.getD "provisioned")
  if engine_mode ∈ UNSTOPPABLE_ENGINE_MODES then
    false
  else if is_multi_az_db_cluster cluster then
    false
  else
    true

/-- `has_schedule_tag` (lines 74-81): check the opt-in tag, treating any
lookup failure as `false`. -/
def has_schedule_tag (rds_client : RdsClient) (cluster_arn tag_key : String) : Bool :=
  match rds_client.list_tags_for_resource cluster_arn with
  | Except.ok tags => tags.any (fun tag => tag.Key == tag_key)
  | Except.error _ => false

/-- The `api_call` selected at lines 89-93: `start_db_cluster` when the
action equals `ACTION_START`, else `stop_db_cluster`. -/
def selected_api_call (rds_client : RdsClient) (cluster_id action : String) :
    Nat → Option Fault :=
  if action == ACTION_START then rds_client.startCall cluster_id
  else rds_client.stopCall cluster_id

/-- The `for attempt in range(1, MAX_RETRIES + 1)` loop of
`perform_action_with_retry` (lines 95-118).  `fuel + 1` is the number of
attempts still allowed, `attempt` the current attempt number; each
iteration invokes the API, on success sleeps 1 second and performs the
confirmatory read, and classifies any fault: `invalidState` re-raises
immediately, anything else is stored and, when attempts remain
(`fuel ≠ 0`), retried after a `RETRY_DELAY_SECONDS` sleep; at the last
attempt the stored fault is raised.  The `fuel = 0` arm is unreachable
from the entry point (the loop body runs at least once since
`MAX_RETRIES ≥ 1`). -/
def retryLoopAux (api : Nat → Option Fault) (confirm : Nat → Except Fault String) :
    Nat → Nat → List Ev × Except Fault String
  | _, 0 => ([], Except.error (Fault.transient ""))
  | attempt, fuel + 1 =>
    match api attempt with
    | some (Fault.invalidState m) =>
      ([Ev.invoke attempt], Except.error (Fault.invalidState m))
    | some (Fault.transient m) =>
      if fuel == 0 then
        ([Ev.invoke attempt], Except.error (Fault.transient m))
      else
        let rest := retryLoopAux api confirm (attempt + 1) fuel
        (Ev.invoke attempt :: Ev.sleepEv RETRY_DELAY_SECONDS :: rest.1, rest.2)
    | none =>
      match confirm attempt with
      | Except.ok new_status =>
        ([Ev.invoke attempt, Ev.sleepEv 1, Ev.describeEv attempt], Except.ok new_status)
      | Except.error (Fault.invalidState m) =>
        ([Ev.invoke attempt, Ev.sleepEv 1, Ev.describeEv attempt],
         Except.error (Fault.invalidState m))
      | Except.error (Fault.transient m) =>
        if fuel == 0 then
          ([Ev.invoke attempt, Ev.sleepEv 1, Ev.describeEv attempt],
           Except.error (Fault.transient m))
        else
          let rest := retryLoopAux api confirm (attempt + 1) fuel
          (Ev.invoke attempt :: Ev.sleepEv 1 :: Ev.describeEv attempt ::
             Ev.sleepEv RETRY_DELAY_SECONDS :: rest.1, rest.2)

/-- `perform_action_with_retry` (lines 84-118): execute start/stop with
retry for transient errors; returns the trace of remote events together
with either the confirmed new status or the propagated fault. -/
def perform_action_with_retry (rds_client : RdsClient) (cluster_id action : String) :
    List Ev × Except Fault String :=
  retryLoopAux (selected_api_call rds_client cluster_id action)
    (rds_client.confirmStatus cluster_id) 1 MAX_RETRIES

/-- The per-cluster result record built by `process_cluster` (line 125). -/
structure ClusterResult where
  cluster_id : String
  outcome : String
  message : String
  status : String
deriving DecidableEq

/-- `process_cluster` (lines 121-162): fetch the current status, apply the
transition guard, and hand off to the retrying executor; every fault is
caught and becomes a `"failed"` outcome carrying `str(exc)`.  The event
trace of the executor (empty when the guard skips or the fetch fails) is
returned alongside the result. -/
def process_cluster (rds_client : RdsClient) (cluster_id action : String) :
    List Ev × ClusterResult :=
  match rds_client.describeStatus cluster_id with
  | Except.error exc =>
    ([], { cluster_id := cluster_id, outcome := "failed",
           message := Fault.toMessage exc, status := "" })
  | Except.ok current_status =>
    if action == ACTION_START
        && (current_status == STATUS_AVAILABLE || current_status == STATUS_STARTING) then
      ([], { cluster_id := cluster_id, outcome := "skipped",
             message := s!"Already \x27{current_status}\x27 — no action needed.",
             status := current_status })
    else if action == ACTION_START && current_status != STATUS_STOPPED then
      ([], { cluster_id := cluster_id, outcome := "skipped",
             message := s!"Cannot start from \x27{current_status}\x27 state.",
             status := current_status })
    else if action == ACTION_STOP
        && (current_status == STATUS_STOPPED || current_status == STATUS_STOPPING) then
      ([], { cluster_id := cluster_id, outcome := "skipped",
             message := s!"Already \x27{current_status}\x27 — no action needed.",
             status := current_status })
    else if action == ACTION_STOP && current_status != STATUS_AVAILABLE then
      ([], { cluster_id := cluster_id, outcome := "skipped",
             message := s!"Cannot stop from \x27{current_status}\x27 state.",
             status := current_status })
    else
      let run := perform_action_with_retry rds_client cluster_id action
      match run.2 with
      | Except.ok new_status =>
        (run.1, { cluster_id := cluster_id, outcome := "processed",
                  message := s!"Action \x27{action}\x27 initiated successfully.",
                  status := new_status })
      | Except.error exc =>
        (run.1, { cluster_id := cluster_id, outcome := "failed",
                  message := Fault.toMessage exc, status := current_status })

/-- The SSM invocation input: `event.get("Action")` and
`event.get("ScheduleTagKey")` may both be absent. -/
structure SsmEvent where
  Action : Option String
  ScheduleTagKey : Option String
deriving DecidableEq

/-- The handler's return record (lines 221-225). -/
structure RunReport where
  ProcessedClusters : List String
  SkippedClusters : List String
  FailedClusters : List String
deriving DecidableEq

/-- Python string formatting of an optional value: `None` prints as
`"None"`. -/
def pyStr : Option String → String
  | none => "None"
  | some s => s

/-- The `ValueError` message raised at line 179. -/
def invalid_action_message (event : SsmEvent) : String :=
  let rawAction := pyStr event.Action
  s!"Invalid Action \x27{rawAction}\x27. Must be \x27Start\x27 or \x27Stop\x27."

/-- Step 2 of `handler` (lines 192-198): filter the discovered inventory to
stoppable clusters carrying the opt-in tag, keeping their identifiers in
discovery order. -/
def eligible_clusters (rds_client : RdsClient) (tag_key : String) : List String :=
  ((rds_client.pages.flatten).filter (fun cluster =>
      is_stoppable_cluster cluster
        && has_schedule_tag rds_client cluster.DBClusterArn tag_key)).map
    (fun cluster => cluster.DBClusterIdentifier)

/-- The `if/elif/else` appends of lines 209-214: route one cluster
identifier to the processed, skipped or failed list according to its
outcome string. -/
def classify_outcome (acc : List String × List String × List String)
    (cluster_id outcome : String) : List String × List String × List String :=
  if outcome == "processed" then (acc.1 ++ [cluster_id], acc.2.1, acc.2.2)
  else if outcome == "skipped" then (acc.1, acc.2.1 ++ [cluster_id], acc.2.2)
  else (acc.1, acc.2.1, acc.2.2 ++ [cluster_id])

/-- Step 3 of `handler` (lines 203-214): process each eligible cluster in
order, partitioning identifiers by outcome. -/
def run_clusters (rds_client : RdsClient) (action : String) (eligible : List String) :
    List String × List String × List String :=
  eligible.foldl (fun acc cluster_id =>
      classify_outcome acc cluster_id (process_cluster rds_client cluster_id action).2.outcome)
    ([], [], [])

/-- `handler` (lines 168-225): validate the action, discover and filter the
inventory, process each eligible cluster, and return the partitioned
report; an invalid action raises `ValueError` before any remote call. -/
def handler (rds_client : RdsClient) (event : SsmEvent) : Except String RunReport :=
  let action := pyLower (event.Action.getD "")
  let tag_key := event.ScheduleTagKey.getD "Schedule"
  if action != ACTION_START && action != ACTION_STOP then
    Except.error (invalid_action_message event)
  else
    let eligible := eligible_clusters rds_client tag_key
    let buckets := run_clusters rds_client action eligible
    Except.ok { ProcessedClusters := buckets.1, SkippedClusters := buckets.2.1,
                FailedClusters := buckets.2.2 }

/-! ## Helper lemmas -/

/-- Whatever the oracle answers, an iteration of the retry loop always
begins by invoking the action for its own attempt number. -/
lemma retryLoopAux_head_invoke (api : Nat → Option Fault)
    (confirm : Nat → Except Fault String) (attempt fuel : Nat) :
    Ev.invoke attempt ∈ (retryLoopAux api confirm attempt (fuel + 1)).1 := by
  unfold retryLoopAux
  cases hapi : api attempt with
  | none =>
    cases hc : confirm attempt with
    | ok s => simp
    | error f =>
      cases f with
      | invalidState m => simp
      | transient m =>
        by_cases hf : (fuel == 0) = true <;> simp [hf]
  | some f =>
    cases f with
    | invalidState m => simp
    | transient m =>
      by_cases hf : (fuel == 0) = true <;> simp [hf]

/-- With a fetched status other than "stopped", a start request is
recorded as skipped and the executor is never entered. -/
lemma process_cluster_start_skip (rds_client : RdsClient) (cluster_id status : String)
    (h : rds_client.describeStatus cluster_id = Except.ok status)
    (hne : status ≠ STATUS_STOPPED) :
    (process_cluster rds_client cluster_id ACTION_START).2.outcome = "skipped" ∧
    (process_cluster rds_client cluster_id ACTION_START).1 = [] := by
  unfold process_cluster
  rw [h]
  by_cases h1 : (status == STATUS_AVAILABLE || status == STATUS_STARTING) = true
  · simp [h1]
  · simp [h1, bne_iff_ne, hne, ACTION_START, ACTION_STOP]

/-- With a fetched status other than "available", a stop request is
recorded as skipped and the executor is never entered. -/
lemma process_cluster_stop_skip (rds_client : RdsClient) (cluster_id status : String)
    (h : rds_client.describeStatus cluster_id = Except.ok status)
    (hne : status ≠ STATUS_AVAILABLE) :
    (process_cluster rds_client cluster_id ACTION_STOP).2.outcome = "skipped" ∧
    (process_cluster rds_client cluster_id ACTION_STOP).1 = [] := by
  unfold process_cluster
  rw [h]
  by_cases h1 : (status == STATUS_STOPPED || status == STATUS_STOPPING) = true
  · simp [h1, ACTION_START, ACTION_STOP]
  · simp [h1, bne_iff_ne, hne, ACTION_START, ACTION_STOP]

/-- With fetched status "stopped", a start request passes the guard: the
outcome is not a skip and the executor makes its first invocation. -/
lemma process_cluster_start_proceed (rds_client : RdsClient) (cluster_id : String)
    (h : rds_client.describeStatus cluster_id = Except.ok STATUS_STOPPED) :
    (process_cluster rds_client cluster_id ACTION_START).2.outcome ≠ "skipped" ∧
    Ev.invoke 1 ∈ (process_cluster rds_client cluster_id ACTION_START).1 := by
  unfold process_cluster
  rw [h]
  simp only [ACTION_START, ACTION_STOP, STATUS_AVAILABLE, STATUS_STARTING, STATUS_STOPPED]
  norm_num
  cases hr : (perform_action_with_retry rds_client cluster_id "start").2 with
  | ok s =>
      simp [hr]
      have := retryLoopAux_head_invoke (selected_api_call rds_client cluster_id "start")
        (rds_client.confirmStatus cluster_id) 1 2
      simpa [perform_action_with_retry, MAX_RETRIES, ACTION_START] using this
  | error e =>
      simp [hr]
      have := retryLoopAux_head_invoke (selected_api_call rds_client cluster_id "start")
        (rds_client.confirmStatus cluster_id) 1 2
      simpa [perform_action_with_retry, MAX_RETRIES, ACTION_START] using this

/-- With fetched status "available", a stop request passes the guard: the
outcome is not a skip and the executor makes its first invocation. -/
lemma process_cluster_stop_proceed (rds_client : RdsClient) (cluster_id : String)
    (h : rds_client.describeStatus cluster_id = Except.ok STATUS_AVAILABLE) :
    (process_cluster rds_client cluster_id ACTION_STOP).2.outcome ≠ "skipped" ∧
    Ev.invoke 1 ∈ (process_cluster rds_client cluster_id ACTION_STOP).1 := by
  unfold process_cluster
  rw [h]
  simp only [ACTION_START, ACTION_STOP, STATUS_AVAILABLE, STATUS_STOPPED, STATUS_STOPPING]
  norm_num
  cases hr : (perform_action_with_retry rds_client cluster_id "stop").2 with
  | ok s =>
      simp [hr]
      have := retryLoopAux_head_invoke (selected_api_call rds_client cluster_id "stop")
        (rds_client.confirmStatus cluster_id) 1 2
      simpa [perform_action_with_retry, MAX_RETRIES, ACTION_STOP] using this
  | error e =>
      simp [hr]
      have := retryLoopAux_head_invoke (selected_api_call rds_client cluster_id "stop")
        (rds_client.confirmStatus cluster_id) 1 2
      simpa [perform_action_with_retry, MAX_RETRIES, ACTION_STOP] using this

/-! ## Claims about the eligibility filter and the tag gate -/

/-- Claim C2: `is_stoppable_cluster` lowers the engine mode (defaulting to
"provisioned" when the field is absent) and rejects exactly when the
lowered mode lies in the unstoppable set; an absent engine mode by itself
never rejects — the result is then decided by the Multi-AZ check alone. -/
theorem C2_engine_mode_filter (cluster : Cluster) :
    (pyLower (cluster.EngineMode.getD "provisioned") ∈ UNSTOPPABLE_ENGINE_MODES →
      is_stoppable_cluster cluster = false)
  ∧ (cluster.EngineMode = none →
      is_stoppable_cluster cluster = !is_multi_az_db_cluster cluster) := by
  constructor
  · intro h
    unfold is_stoppable_cluster
    rw [if_pos h]
  · intro h
    unfold is_stoppable_cluster
    rw [h]
    have hmem : ¬ (pyLower (Option.getD (none : Option String) "provisioned")
        ∈ UNSTOPPABLE_ENGINE_MODES) := by decide
    rw [if_neg hmem]
    cases hm : is_multi_az_db_cluster cluster <;> simp [hm]

/-- Witness for C2 at concrete descriptors: a mixed-case "Serverless" mode
is rejected, and a descriptor with no engine mode and no structural marker
is accepted. -/
theorem C2_engine_mode_filter_witness :
    is_stoppable_cluster ⟨"c1", some "aurora-mysql", some "Serverless", none, "arn1"⟩ = false
  ∧ is_stoppable_cluster ⟨"c2", some "aurora-mysql", none, none, "arn2"⟩
      = !is_multi_az_db_cluster ⟨"c2", some "aurora-mysql", none, none, "arn2"⟩ :=
  ⟨(C2_engine_mode_filter _).1 (by decide), (C2_engine_mode_filter _).2 rfl⟩

/-- Claim C3: a descriptor whose engine name begins with "mysql" or
"postgres" and which carries the `DBClusterInstanceClass` marker is never
stoppable, whatever its engine mode. -/
theorem C3_multi_az_rejected (cluster : Cluster)
    (h1 : pyStartsWith (cluster.Engine.getD "") "mysql" = true ∨
          pyStartsWith (cluster.Engine.getD "") "postgres" = true)
    (h2 : cluster.DBClusterInstanceClass.isSome = true) :
    is_stoppable_cluster cluster = false := by
  have hm : is_multi_az_db_cluster cluster = true := by
    unfold is_multi_az_db_cluster
    rcases h1 with h1 | h1 <;> simp [h1, h2]
  unfold is_stoppable_cluster
  rw [hm]
  simp

/-- Witness for C3: a Multi-AZ descriptor (engine "mysql", marker present,
engine mode "provisioned") is rejected. -/
theorem C3_multi_az_rejected_witness :
    is_stoppable_cluster
      ⟨"c3", some "mysql", some "provisioned", some "db.r5.large", "arn3"⟩ = false :=
  C3_multi_az_rejected _ (Or.inl (by decide)) (by decide)

/-- Claim C4: `has_schedule_tag` is true exactly when the returned tag list
holds a tag with the given key (its value is irrelevant), and any lookup
failure yields `false` instead of propagating. -/
theorem C4_tag_gate (rds_client : RdsClient) (cluster_arn tag_key : String) :
    (∀ tags, rds_client.list_tags_for_resource cluster_arn = Except.ok tags →
      (has_schedule_tag rds_client cluster_arn tag_key = true ↔
        ∃ tag, tag ∈ tags ∧ tag.Key = tag_key))
  ∧ (∀ exc, rds_client.list_tags_for_resource cluster_arn = Except.error exc →
      has_schedule_tag rds_client cluster_arn tag_key = false) := by
  constructor
  · intro tags h
    unfold has_schedule_tag
    rw [h]
    simp [List.any_eq_true, beq_iff_eq]
  · intro exc h
    unfold has_schedule_tag
    rw [h]

/-- A client answering a fixed tag list for one ARN and a failure for any
other. -/
def tagClient : RdsClient :=
  { pages := []
    list_tags_for_resource := fun arn =>
      if arn == "arn:good" then Except.ok [⟨"Schedule", "on"⟩, ⟨"Env", "prod"⟩]
      else Except.error (Fault.transient "access denied")
    describeStatus := fun _ => Except.ok "available"
    startCall := fun _ _ => none
    stopCall := fun _ _ => none
    confirmStatus := fun _ _ => Except.ok "available" }

/-- Witness for C4: the tag gate admits the ARN whose list carries the key
and treats a failing lookup as not opted in. -/
theorem C4_tag_gate_witness :
    has_schedule_tag tagClient "arn:good" "Schedule" = true
  ∧ has_schedule_tag tagClient "arn:bad" "Schedule" = false :=
  ⟨((C4_tag_gate tagClient "arn:good" "Schedule").1 _ rfl).mpr
      ⟨⟨"Schedule", "on"⟩, by simp, rfl⟩,
   (C4_tag_gate tagClient "arn:bad" "Schedule").2 (Fault.transient "access denied") rfl⟩

/-! ## Claims about the transition guard -/

/-- Claim C1: per action the guard proceeds from exactly one source state —
"stopped" for a start request, "available" for a stop request — entering
the executor (first invocation made, outcome not a skip); every other
fetched status, the four named states included, yields a skipped outcome
with no invocation. -/
theorem C1_transition_guard (rds_client : RdsClient) (cluster_id status : String)
    (h : rds_client.describeStatus cluster_id = Except.ok status) :
    ((status = STATUS_STOPPED →
        (process_cluster rds_client cluster_id ACTION_START).2.outcome ≠ "skipped" ∧
        Ev.invoke 1 ∈ (process_cluster rds_client cluster_id ACTION_START).1)
   ∧ (status ≠ STATUS_STOPPED →
        (process_cluster rds_client cluster_id ACTION_START).2.outcome = "skipped" ∧
        (process_cluster rds_client cluster_id ACTION_START).1 = []))
  ∧ ((status = STATUS_AVAILABLE →
        (process_cluster rds_client cluster_id ACTION_STOP).2.outcome ≠ "skipped" ∧
        Ev.invoke 1 ∈ (process_cluster rds_client cluster_id ACTION_STOP).1)
   ∧ (status ≠ STATUS_AVAILABLE →
        (process_cluster rds_client cluster_id ACTION_STOP).2.outcome = "skipped" ∧
        (process_cluster rds_client cluster_id ACTION_STOP).1 = [])) := by
  refine ⟨⟨fun he => ?_, fun hne => ?_⟩, fun he => ?_, fun hne => ?_⟩
  · subst he; exact process_cluster_start_proceed rds_client cluster_id h
  · exact process_cluster_start_skip rds_client cluster_id status h hne
  · subst he; exact process_cluster_stop_proceed rds_client cluster_id h
  · exact process_cluster_stop_skip rds_client cluster_id status h hne

/-- A status oracle answering the same fixed status for every cluster;
start/stop invocations always succeed and confirm "available". -/
def guardClient (status : String) : RdsClient :=
  { pages := []
    list_tags_for_resource := fun _ => Except.ok []
    describeStatus := fun _ => Except.ok status
    startCall := fun _ _ => none
    stopCall := fun _ _ => none
    confirmStatus := fun _ _ => Except.ok "available" }

/-- Witness for C1: from "stopped" a start proceeds to an invocation; from
"starting" a start is skipped with no invocation. -/
theorem C1_transition_guard_witness :
    ((process_cluster (guardClient "stopped") "db" ACTION_START).2.outcome ≠ "skipped" ∧
      Ev.invoke 1 ∈ (process_cluster (guardClient "stopped") "db" ACTION_START).1)
  ∧ ((process_cluster (guardClient "starting") "db" ACTION_START).2.outcome = "skipped" ∧
      (process_cluster (guardClient "starting") "db" ACTION_START).1 = []) :=
  ⟨(C1_transition_guard (guardClient "stopped") "db" "stopped" rfl).1.1 rfl,
   (C1_transition_guard (guardClient "starting") "db" "starting" rfl).1.2 (by decide)⟩

/-- Claim C10: the guard compares the fetched status case-sensitively
against the lowercase literals; a status that is a letter-case variant of a
named state (its lowering is a named state but it is not the exact
literal) falls into the "other" bucket and is skipped for both actions,
with no invocation made. -/
theorem C10_guard_case_sensitive (rds_client : RdsClient) (cluster_id status : String)
    (h : rds_client.describeStatus cluster_id = Except.ok status)
    (_h1 : pyLower status ∈ [STATUS_AVAILABLE, STATUS_STOPPED, STATUS_STARTING, STATUS_STOPPING])
    (h2 : status ∉ [STATUS_AVAILABLE, STATUS_STOPPED, STATUS_STARTING, STATUS_STOPPING]) :
    ((process_cluster rds_client cluster_id ACTION_START).2.outcome = "skipped" ∧
     (process_cluster rds_client cluster_id ACTION_START).1 = [])
  ∧ ((process_cluster rds_client cluster_id ACTION_STOP).2.outcome = "skipped" ∧
     (process_cluster rds_client cluster_id ACTION_STOP).1 = []) := by
  have hstop : status ≠ STATUS_STOPPED := by
    intro e; exact h2 (by rw [e]; simp)
  have havail : status ≠ STATUS_AVAILABLE := by
    intro e; exact h2 (by rw [e]; simp)
  exact ⟨process_cluster_start_skip rds_client cluster_id status h hstop,
         process_cluster_stop_skip rds_client cluster_id status h havail⟩

/-- Witness for C10: the status "Stopped" — which would allow a start were
the comparison case-insensitive — is skipped for both actions with no
invocation. -/
theorem C10_guard_case_sensitive_witness :
    ((process_cluster (guardClient "Stopped") "db" ACTION_START).2.outcome = "skipped" ∧
     (process_cluster (guardClient "Stopped") "db" ACTION_START).1 = [])
  ∧ ((process_cluster (guardClient "Stopped") "db" ACTION_STOP).2.outcome = "skipped" ∧
     (process_cluster (guardClient "Stopped") "db" ACTION_STOP).1 = []) :=
  C10_guard_case_sensitive (guardClient "Stopped") "db" "Stopped" rfl
    (by decide) (by decide)

/-! ## Claims about the retrying executor -/

/-- Claim C5: an invalid-state fault from the start/stop invocation on the
first attempt propagates at once — the trace is a single invocation, with
no retry and no inter-attempt sleep. -/
theorem C5_invalid_state_no_retry (rds_client : RdsClient) (cluster_id action m : String)
    (h : selected_api_call rds_client cluster_id action 1 = some (Fault.invalidState m)) :
    perform_action_with_retry rds_client cluster_id action =
      ([Ev.invoke 1], Except.error (Fault.invalidState m)) := by
  simp [perform_action_with_retry, MAX_RETRIES, retryLoopAux, h]

/-- A client whose start/stop invocations always report an invalid state. -/
def invalidStateClient : RdsClient :=
  { pages := []
    list_tags_for_resource := fun _ => Except.ok []
    describeStatus := fun _ => Except.ok "available"
    startCall := fun _ _ => some (Fault.invalidState "bad state")
    stopCall := fun _ _ => some (Fault.invalidState "bad state")
    confirmStatus := fun _ _ => Except.ok "available" }

/-- Witness for C5 at a concrete client. -/
theorem C5_invalid_state_no_retry_witness :
    perform_action_with_retry invalidStateClient "db" ACTION_STOP =
      ([Ev.invoke 1], Except.error (Fault.invalidState "bad state")) :=
  C5_invalid_state_no_retry invalidStateClient "db" ACTION_STOP "bad state" rfl

/-- Claim C6: when every attempt's invocation faults transiently, the
executor makes exactly `MAX_RETRIES = 3` invocations, sleeping the fixed
`RETRY_DELAY_SECONDS = 5` between consecutive attempts and not after the
last, then propagates the last attempt's fault. -/
theorem C6_transient_three_attempts (rds_client : RdsClient)
    (cluster_id action : String) (m : Nat → String)
    (h : ∀ n, selected_api_call rds_client cluster_id action n
      = some (Fault.transient (m n))) :
    perform_action_with_retry rds_client cluster_id action =
      ([Ev.invoke 1, Ev.sleepEv RETRY_DELAY_SECONDS, Ev.invoke 2,
        Ev.sleepEv RETRY_DELAY_SECONDS, Ev.invoke 3],
       Except.error (Fault.transient (m 3))) := by
  simp [perform_action_with_retry, MAX_RETRIES, retryLoopAux, h 1, h 2, h 3]

/-- A client whose start/stop invocations always fault transiently. -/
def transientClient : RdsClient :=
  { pages := []
    list_tags_for_resource := fun _ => Except.ok []
    describeStatus := fun _ => Except.ok "available"
    startCall := fun _ _ => some (Fault.transient "throttled")
    stopCall := fun _ _ => some (Fault.transient "throttled")
    confirmStatus := fun _ _ => Except.ok "available" }

/-- Witness for C6 at a concrete client. -/
theorem C6_transient_three_attempts_witness :
    perform_action_with_retry transientClient "db" ACTION_START =
      ([Ev.invoke 1, Ev.sleepEv RETRY_DELAY_SECONDS, Ev.invoke 2,
        Ev.sleepEv RETRY_DELAY_SECONDS, Ev.invoke 3],
       Except.error (Fault.transient "throttled")) :=
  C6_transient_three_attempts transientClient "db" ACTION_START
    (fun _ => "throttled") (fun _ => rfl)

/-- A client whose invocations always succeed but whose confirmatory read
faults transiently on the first attempt and succeeds afterwards. -/
def confirmFaultClient : RdsClient :=
  { pages := []
    list_tags_for_resource := fun _ => Except.ok []
    describeStatus := fun _ => Except.ok "stopped"
    startCall := fun _ _ => none
    stopCall := fun _ _ => none
    confirmStatus := fun _ attempt =>
      if attempt == 1 then Except.error (Fault.transient "timeout")
      else Except.ok "starting" }

/-- Counterexample to claim C7 as stated: after a successful invocation on
attempt 1, the confirmatory read's transient failure IS retried through the
retry loop — the trace shows a second `invoke` after the failed
`describeEv 1`, so the read's failure does cause the start/stop operation
to be invoked again. -/
theorem C7_confirm_single_shot_counterexample :
    confirmFaultClient.confirmStatus "db1" 1 = Except.error (Fault.transient "timeout")
  ∧ perform_action_with_retry confirmFaultClient "db1" ACTION_START =
      ([Ev.invoke 1, Ev.sleepEv 1, Ev.describeEv 1, Ev.sleepEv RETRY_DELAY_SECONDS,
        Ev.invoke 2, Ev.sleepEv 1, Ev.describeEv 2], Except.ok "starting") :=
  ⟨rfl, rfl⟩

/-- Claim C7 as amended: after a successful start/stop invocation, a
transient failure of the confirmatory status read is handled by the same
retry loop as an invocation fault — after the fixed delay the start/stop
operation is invoked again on the next attempt. -/
theorem C7_confirm_retried (rds_client : RdsClient) (cluster_id action m s : String)
    (h1 : selected_api_call rds_client cluster_id action 1 = none)
    (h2 : rds_client.confirmStatus cluster_id 1 = Except.error (Fault.transient m))
    (h3 : selected_api_call rds_client cluster_id action 2 = none)
    (h4 : rds_client.confirmStatus cluster_id 2 = Except.ok s) :
    perform_action_with_retry rds_client cluster_id action =
      ([Ev.invoke 1, Ev.sleepEv 1, Ev.describeEv 1, Ev.sleepEv RETRY_DELAY_SECONDS,
        Ev.invoke 2, Ev.sleepEv 1, Ev.describeEv 2], Except.ok s) := by
  simp [perform_action_with_retry, MAX_RETRIES, retryLoopAux, h1, h2, h3, h4]

/-- Witness for the amended C7 at a concrete client. -/
theorem C7_confirm_retried_witness :
    perform_action_with_retry confirmFaultClient "db2" ACTION_START =
      ([Ev.invoke 1, Ev.sleepEv 1, Ev.describeEv 1, Ev.sleepEv RETRY_DELAY_SECONDS,
        Ev.invoke 2, Ev.sleepEv 1, Ev.describeEv 2], Except.ok "starting") :=
  C7_confirm_retried confirmFaultClient "db2" ACTION_START "timeout" "starting"
    rfl rfl rfl rfl

/-! ## Claims about the handler -/

/-- `classify_outcome` on a "processed" outcome appends to the first
bucket. -/
lemma classify_outcome_processed (acc : List String × List String × List String)
    (cluster_id outcome : String) (h : outcome = "processed") :
    classify_outcome acc cluster_id outcome
      = (acc.1 ++ [cluster_id], acc.2.1, acc.2.2) := by
  simp [classify_outcome, h]

/-- `classify_outcome` on a "skipped" outcome appends to the second
bucket. -/
lemma classify_outcome_skipped (acc : List String × List String × List String)
    (cluster_id outcome : String) (h : outcome = "skipped") :
    classify_outcome acc cluster_id outcome
      = (acc.1, acc.2.1 ++ [cluster_id], acc.2.2) := by
  simp [classify_outcome, h]

/-- `classify_outcome` on any other outcome appends to the third bucket. -/
lemma classify_outcome_other (acc : List String × List String × List String)
    (cluster_id outcome : String) (h1 : outcome ≠ "processed")
    (h2 : outcome ≠ "skipped") :
    classify_outcome acc cluster_id outcome
      = (acc.1, acc.2.1, acc.2.2 ++ [cluster_id]) := by
  simp [classify_outcome, h1, h2]

/-- Folding `classify_outcome` over a list adds each element to exactly one
bucket: the three buckets' occurrence counts sum to the accumulator's plus
the list's. -/
lemma classify_fold_count (f : String → String) (l : List String)
    (a b c : List String) (id : String) :
    ((l.foldl (fun acc x => classify_outcome acc x (f x)) (a, b, c)).1.count id
      + (l.foldl (fun acc x => classify_outcome acc x (f x)) (a, b, c)).2.1.count id
      + (l.foldl (fun acc x => classify_outcome acc x (f x)) (a, b, c)).2.2.count id)
      = a.count id + b.count id + c.count id + l.count id := by
  induction l generalizing a b c with
  | nil => simp
  | cons x xs ih =>
    rw [List.foldl_cons]
    by_cases h1 : f x = "processed"
    · rw [classify_outcome_processed (a, b, c) x (f x) h1]
      rw [ih]
      simp only [List.count_append, List.count_cons]
      by_cases hx : id = x <;> simp [hx, List.count_singleton, beq_iff_eq] <;> omega
    · by_cases h2 : f x = "skipped"
      · rw [classify_outcome_skipped (a, b, c) x (f x) h2]
        rw [ih]
        simp only [List.count_append, List.count_cons]
        by_cases hx : id = x <;> simp [hx, List.count_singleton, beq_iff_eq] <;> omega
      · rw [classify_outcome_other (a, b, c) x (f x) h1 h2]
        rw [ih]
        simp only [List.count_append, List.count_cons]
        by_cases hx : id = x <;> simp [hx, List.count_singleton, beq_iff_eq] <;> omega

/-- The failed bucket only ever grows across the fold. -/
lemma classify_fold_failed_superset (f : String → String) (l : List String)
    (a b c : List String) (id : String) (hid : id ∈ c) :
    id ∈ (l.foldl (fun acc x => classify_outcome acc x (f x)) (a, b, c)).2.2 := by
  induction l generalizing a b c with
  | nil => simpa
  | cons x xs ih =>
    rw [List.foldl_cons]
    by_cases h1 : f x = "processed"
    · rw [classify_outcome_processed (a, b, c) x (f x) h1]
      exact ih (a ++ [x]) b c hid
    · by_cases h2 : f x = "skipped"
      · rw [classify_outcome_skipped (a, b, c) x (f x) h2]
        exact ih a (b ++ [x]) c hid
      · rw [classify_outcome_other (a, b, c) x (f x) h1 h2]
        exact ih a b (c ++ [x]) (List.mem_append_left _ hid)

/-- An element of the list whose outcome is neither "processed" nor
"skipped" ends up in the failed bucket. -/
lemma classify_fold_failed_mem (f : String → String) (l : List String)
    (a b c : List String) (cid : String) (hmem : cid ∈ l)
    (h2 : f cid ≠ "processed") (h3 : f cid ≠ "skipped") :
    cid ∈ (l.foldl (fun acc x => classify_outcome acc x (f x)) (a, b, c)).2.2 := by
  induction l generalizing a b c with
  | nil => cases hmem
  | cons x xs ih =>
    rw [List.foldl_cons]
    rcases List.mem_cons.mp hmem with he | hm
    · subst he
      rw [classify_outcome_other (a, b, c) cid (f cid) h2 h3]
      exact classify_fold_failed_superset f xs a b (c ++ [cid]) cid
        (List.mem_append_right _ (List.mem_singleton.mpr rfl))
    · by_cases h1 : f x = "processed"
      · rw [classify_outcome_processed (a, b, c) x (f x) h1]
        exact ih (a ++ [x]) b c hm
      · by_cases h4 : f x = "skipped"
        · rw [classify_outcome_skipped (a, b, c) x (f x) h4]
          exact ih a (b ++ [x]) c hm
        · rw [classify_outcome_other (a, b, c) x (f x) h1 h4]
          exact ih a b (c ++ [x]) hm

/-- Claim C8: the handler fails exactly on an invalid action.  When the
lowercased action is neither "start" nor "stop" it returns the
configuration error for every possible client — the result does not depend
on the remote environment at all, so no discovery, tag lookup or
invocation can have occurred; for a valid action it always returns a
report, whatever per-cluster faults the client produces. -/
theorem C8_handler_validation (rds_client : RdsClient) (event : SsmEvent) :
    (¬ (pyLower (event.Action.getD "") = ACTION_START ∨
        pyLower (event.Action.getD "") = ACTION_STOP) →
      ∀ other_client : RdsClient,
        handler other_client event = Except.error (invalid_action_message event))
  ∧ ((pyLower (event.Action.getD "") = ACTION_START ∨
      pyLower (event.Action.getD "") = ACTION_STOP) →
      ∃ report, handler rds_client event = Except.ok report) := by
  constructor
  · intro h other_client
    push_neg at h
    simp only [handler]
    rw [if_pos]
    simp [bne_iff_ne, h.1, h.2]
  · intro h
    simp only [handler]
    rw [if_neg]
    · exact ⟨_, rfl⟩
    · rcases h with h | h <;> simp [h, bne_iff_ne, ACTION_START, ACTION_STOP]

/-- A client with an empty inventory, for exercising the handler's input
validation. -/
def c8Client : RdsClient :=
  { pages := []
    list_tags_for_resource := fun _ => Except.ok []
    describeStatus := fun _ => Except.ok "available"
    startCall := fun _ _ => none
    stopCall := fun _ _ => none
    confirmStatus := fun _ _ => Except.ok "available" }

/-- The invalid invocation input of the spec's scenario D. -/
def c8EventBad : SsmEvent := ⟨some "pause", none⟩

/-- Witness for C8: action "pause" aborts with the configuration error,
action "Start" returns a report. -/
theorem C8_handler_validation_witness :
    handler c8Client c8EventBad = Except.error (invalid_action_message c8EventBad)
  ∧ ∃ report, handler c8Client ⟨some "Start", none⟩ = Except.ok report :=
  ⟨(C8_handler_validation c8Client c8EventBad).1 (by decide) c8Client,
   (C8_handler_validation c8Client ⟨some "Start", none⟩).2 (Or.inl (by decide))⟩

/-- Claim C9: a non-aborting run's report partitions the eligible set —
each eligible identifier's occurrences are split exactly across the three
lists, identifiers outside the eligible set appear in none, an eligible
cluster whose per-cluster processing ends "failed" lands in
`FailedClusters` (the surrounding fold still disposing of every other
cluster), and a fault of the pre-guard status fetch always produces that
"failed" outcome rather than escaping. -/
theorem C9_report_partition (rds_client : RdsClient) (event : SsmEvent) (report : RunReport)
    (h : handler rds_client event = Except.ok report) :
    (∀ id : String,
        report.ProcessedClusters.count id + report.SkippedClusters.count id
          + report.FailedClusters.count id
          = (eligible_clusters rds_client (event.ScheduleTagKey.getD "Schedule")).count id)
  ∧ (∀ id : String,
        id ∉ eligible_clusters rds_client (event.ScheduleTagKey.getD "Schedule") →
        id ∉ report.ProcessedClusters ∧ id ∉ report.SkippedClusters ∧
          id ∉ report.FailedClusters)
  ∧ (∀ cid, cid ∈ eligible_clusters rds_client (event.ScheduleTagKey.getD "Schedule") →
        (process_cluster rds_client cid (pyLower (event.Action.getD ""))).2.outcome
          = "failed" →
        cid ∈ report.FailedClusters)
  ∧ (∀ cid exc, rds_client.describeStatus cid = Except.error exc →
        (process_cluster rds_client cid (pyLower (event.Action.getD ""))).2.outcome
          = "failed") := by
  simp only [handler] at h
  by_cases hv : (pyLower (event.Action.getD "") != ACTION_START &&
                 pyLower (event.Action.getD "") != ACTION_STOP) = true
  · rw [if_pos hv] at h
    cases h
  · rw [if_neg hv] at h
    injection h with h
    subst h
    refine ⟨?_, ?_, ?_, ?_⟩
    · intro id
      have hc := classify_fold_count
        (fun cid => (process_cluster rds_client cid (pyLower (event.Action.getD ""))).2.outcome)
        (eligible_clusters rds_client (event.ScheduleTagKey.getD "Schedule")) [] [] [] id
      simpa [run_clusters] using hc
    · intro id hid
      have hc := classify_fold_count
        (fun cid => (process_cluster rds_client cid (pyLower (event.Action.getD ""))).2.outcome)
        (eligible_clusters rds_client (event.ScheduleTagKey.getD "Schedule")) [] [] [] id
      have h0 : (eligible_clusters rds_client (event.ScheduleTagKey.getD "Schedule")).count id
          = 0 := List.count_eq_zero.mpr hid
      rw [h0] at hc
      simp only [List.count_nil] at hc
      refine ⟨List.count_eq_zero.mp ?_, List.count_eq_zero.mp ?_, List.count_eq_zero.mp ?_⟩
      all_goals simp only [run_clusters]; omega
    · intro cid hcid hfail
      have hm := classify_fold_failed_mem
        (fun c => (process_cluster rds_client c (pyLower (event.Action.getD ""))).2.outcome)
        (eligible_clusters rds_client (event.ScheduleTagKey.getD "Schedule")) [] [] [] cid hcid
        (by simp only [hfail]; decide) (by simp only [hfail]; decide)
      simpa [run_clusters] using hm
    · intro cid exc hx
      unfold process_cluster
      rw [hx]

/-- A four-cluster inventory: db1 is serverless (filtered out), db2 and db4
carry the opt-in tag, db3 does not; db4's status fetch faults. -/
def c9Client : RdsClient :=
  { pages := [[⟨"db1", some "aurora-mysql", some "serverless", none, "arn:db1"⟩,
               ⟨"db2", some "aurora-mysql", none, none, "arn:db2"⟩,
               ⟨"db3", some "aurora-mysql", none, none, "arn:db3"⟩,
               ⟨"db4", some "aurora-postgresql", none, none, "arn:db4"⟩]]
    list_tags_for_resource := fun arn =>
      if arn == "arn:db2" || arn == "arn:db4" then Except.ok [⟨"Schedule", "on"⟩]
      else Except.ok []
    describeStatus := fun cid =>
      if cid == "db4" then Except.error (Fault.transient "describe failed")
      else Except.ok "available"
    startCall := fun _ _ => none
    stopCall := fun _ _ => none
    confirmStatus := fun _ _ => Except.ok "stopping" }

/-- The invocation input for the C9 witness run. -/
def c9Event : SsmEvent := ⟨some "Stop", none⟩

/-- The report the C9 witness run returns: db2 processed, db4 failed. -/
def c9Report : RunReport := ⟨["db2"], [], ["db4"]⟩

/-- Witness for C9: in the concrete run, db2's occurrences split across the
three lists exactly as often as it is eligible, and faulting db4 lands in
the failed list while the run still completes. -/
theorem C9_report_partition_witness :
    (c9Report.ProcessedClusters.count "db2" + c9Report.SkippedClusters.count "db2"
        + c9Report.FailedClusters.count "db2"
      = (eligible_clusters c9Client "Schedule").count "db2")
  ∧ "db4" ∈ c9Report.FailedClusters :=
  ⟨(C9_report_partition c9Client c9Event c9Report rfl).1 "db2",
   (C9_report_partition c9Client c9Event c9Report rfl).2.2.1 "db4" (by decide) (by decide)⟩

end AuroraScheduler
